import Mathlib

/-!
Shallow embedding of the ticket verification core of the repository
(src/ticket_verifier.py and the pagination loop of
src/freshservice_client.py), together with theorems settling the
claims about it.

Python dictionaries with a fixed key set are modelled as structures;
a dictionary key that may be absent is modelled as an `Option` field
(`none` = key absent).  Python `None` values on ticket fields are also
`none`.  Floating point percentages are modelled over `Rat`
(the quantities involved are exact ratios of integers).
-/

namespace TicketVerifier

/-- A sent email record (`sent_email` dict in `verify_batch`).
`priority`/`type`/`category` are `none` when the key is absent,
which triggers discovery mode in `_compare_ticket`. -/
structure SentEmail where
  number : Nat
  subject : String
  priority : Option String
  type : Option String
  category : Option String
  deriving Repr, DecidableEq

/-- A Freshservice ticket as consumed by `_compare_ticket` /
`verify_batch` (fields read via `.get`, so each is an `Option`). -/
structure FsTicket where
  id : Nat
  subject : String
  priority : Option Int
  urgency : Option Int
  impact : Option Int
  type : Option String
  category : Option String
  sub_category : Option String
  item : Option String
  group_id : Option Int
  deriving Repr, DecidableEq

/-- One field comparison entry (the per-field dict with keys
`expected`, `actual`, `match`).  `matchRes = none` models Python
`match: None`. -/
structure FieldComparison where
  expected : String
  actual : String
  matchRes : Option Bool
  deriving Repr, DecidableEq

/-- The `comparisons` dict of a FOUND result: in both discovery and
normal mode `_compare_ticket` populates exactly these eight keys. -/
structure Comparisons where
  priority : FieldComparison
  urgency : FieldComparison
  impact : FieldComparison
  type : FieldComparison
  category : FieldComparison
  sub_category : FieldComparison
  item : FieldComparison
  group : FieldComparison
  deriving Repr, DecidableEq

/-- A verification result for one sent record.  `comparisons = none`
models the empty `comparisons` dict of a NOT_FOUND result. -/
structure VerificationResult where
  ticket_number : Nat
  status : String
  freshservice_id : Option Nat
  subject : String
  comparisons : Option Comparisons
  overall_result : String
  match_count : Nat
  mismatch_count : Nat
  deriving Repr, DecidableEq

/-!
Python string primitives.  Lean's `String.splitOn` and `String.trim`
are defined by well-founded recursion and do not reduce inside the
kernel, so the Python operations `sep in s`, `s.split(sep)` and
`s.strip()` are modelled by the structurally recursive functions
below (over the character list of the string), which evaluate on
concrete inputs.
-/

/-- Whether the second character list starts with the first. -/
def leadsWith : List Char → List Char → Bool
  | [], _ => true
  | _ :: _, [] => false
  | a :: as, b :: bs => a == b && leadsWith as bs

/-- Split a character list at the first occurrence of `sep`:
`some (before, after)` with the occurrence removed, or `none` when
`sep` does not occur. -/
def breakAt (sep : List Char) : List Char → Option (List Char × List Char)
  | [] => none
  | c :: cs =>
      if leadsWith sep (c :: cs) then some ([], (c :: cs).drop sep.length)
      else
        match breakAt sep cs with
        | some (pre, post) => some (c :: pre, post)
        | none => none

/-- Repeatedly split at `sep`; `fuel` bounds the number of pieces
(`length + 1` always suffices for a non-empty separator). -/
def splitWithFuel (sep : List Char) : Nat → List Char → List (List Char)
  | 0, cs => [cs]
  | fuel + 1, cs =>
      match breakAt sep cs with
      | none => [cs]
      | some (pre, post) => pre :: splitWithFuel sep fuel post

/-- Python `s.split(sep)` for a non-empty separator. -/
def pySplit (s sep : String) : List String :=
  (splitWithFuel sep.toList (s.length + 1) s.toList).map (fun cs => String.mk cs)

/-- Python `needle in hay` substring test. -/
def strContains (hay needle : String) : Bool :=
  needle.isEmpty || (breakAt needle.toList hay.toList).isSome

/-- Whitespace stripped by Python `str.strip()`, restricted to the
six ASCII whitespace characters (Python also strips the Unicode
whitespace class; the category paths compared here are ASCII). -/
def isSpaceChar (c : Char) : Bool :=
  c == ' ' || c == '\t' || c == '\n' || c == '\r' || c == '\x0b' || c == '\x0c'

/-- Drop leading whitespace characters. -/
def dropSpaces : List Char → List Char
  | [] => []
  | c :: cs => if isSpaceChar c then dropSpaces cs else c :: cs

/-- Python `s.strip()`. -/
def pyStrip (s : String) : String :=
  String.mk ((dropSpaces (dropSpaces s.toList).reverse).reverse)

/-- `FS_PRIORITY_MAP` (1 Low, 2 Medium, 3 High, 4 Urgent). -/
def fsPriorityMap (n : Int) : Option String :=
  if n = 1 then some "Low"
  else if n = 2 then some "Medium"
  else if n = 3 then some "High"
  else if n = 4 then some "Urgent"
  else none

/-- `FS_URGENCY_MAP` (1 Low, 2 Medium, 3 High). -/
def fsUrgencyMap (n : Int) : Option String :=
  if n = 1 then some "Low"
  else if n = 2 then some "Medium"
  else if n = 3 then some "High"
  else none

/-- `FS_IMPACT_MAP` (identical table to `FS_URGENCY_MAP`). -/
def fsImpactMap (n : Int) : Option String :=
  fsUrgencyMap n

/-- `FS_PRIORITY_MAP.get(p, f'Unknown (p)')` where `p` itself came from
`fs_ticket.get('priority')` and may be Python `None`. -/
def fsPriorityName (p : Option Int) : String :=
  match p with
  | some n => (fsPriorityMap n).getD ("Unknown (" ++ toString n ++ ")")
  | none => "Unknown (None)"

/-- `FS_URGENCY_MAP.get(actual, '')` — label of a numeric urgency,
empty string when out of range. -/
def urgLabel (n : Int) : String :=
  (fsUrgencyMap n).getD ""

/-- `FS_IMPACT_MAP.get(actual, '')`. -/
def impLabel (n : Int) : String :=
  (fsImpactMap n).getD ""

/-- The value type of `PRIORITY_TO_URGENCY_IMPACT`: a single
urgency/impact dict or a list of such dicts. -/
inductive UIMapping where
  | single (urgency impact : Int)
  | multiple (pairs : List (Int × Int))
  deriving Repr, DecidableEq

/-- `PRIORITY_TO_URGENCY_IMPACT` lookup (`.get`, `none` when the
priority name is unrecognized). -/
def priorityToUrgencyImpact (p : String) : Option UIMapping :=
  if p = "Priority 1" then some (.single 3 3)
  else if p = "Priority 2" then some (.multiple [(3, 2), (2, 3)])
  else if p = "Priority 3" then some (.multiple [(3, 1), (2, 2), (1, 3)])
  else if p = "Priority 4" then some (.single 1 1)
  else none

/-- `_priority_name_to_number` (unrecognized names default to 2). -/
def priorityNameToNumber (p : String) : Int :=
  if p = "Priority 1" then 4
  else if p = "Priority 2" then 3
  else if p = "Priority 3" then 2
  else if p = "Priority 4" then 1
  else 2

/-- `_get_expected_urgency_from_priority`.  The Python builds
`' or '.join(set(urgencies))`; CPython set iteration order is an
implementation detail, modelled here as first-occurrence
deduplication (`eraseDups`).  The matching semantics proved below are
independent of the chosen order. -/
def getExpectedUrgencyFromPriority (p : String) : String :=
  match priorityToUrgencyImpact p with
  | some (.multiple pairs) =>
      String.intercalate " or " ((pairs.map (fun q => (fsUrgencyMap q.1).getD "")).eraseDups)
  | some (.single u _) => (fsUrgencyMap u).getD ""
  | none => "Unknown"

/-- `_get_expected_impact_from_priority` (same construction over the
`impact` components). -/
def getExpectedImpactFromPriority (p : String) : String :=
  match priorityToUrgencyImpact p with
  | some (.multiple pairs) =>
      String.intercalate " or " ((pairs.map (fun q => (fsImpactMap q.2).getD "")).eraseDups)
  | some (.single _ i) => (fsImpactMap i).getD ""
  | none => "Unknown"

/-- Python `' or ' in expected`. -/
def containsOr (s : String) : Bool :=
  strContains s " or "

/-- `_check_urgency_match`. -/
def checkUrgencyMatch (expected : String) (actual : Int) : Bool :=
  if containsOr expected then
    (pySplit expected " or ").contains (urgLabel actual)
  else
    expected == urgLabel actual

/-- `_check_impact_match`. -/
def checkImpactMatch (expected : String) (actual : Int) : Bool :=
  if containsOr expected then
    (pySplit expected " or ").contains (impLabel actual)
  else
    expected == impLabel actual

/-- `VALID_GROUP_IDS` (the six-id allow-list in `_compare_ticket`). -/
def VALID_GROUP_IDS : List Int :=
  [76000128925, 76000128926, 76000128927, 76000138755, 76000165188, 76000209739]

/-- `_get_group_name`. -/
def getGroupName (g : Int) : String :=
  if g = 76000128925 then "Service Desk Team"
  else if g = 76000128926 then "Infrastructure Team"
  else if g = 76000128927 then "Application Team"
  else if g = 76000138755 then "Enterprise Technology"
  else if g = 76000165188 then "Lightbulbs"
  else if g = 76000209739 then "People & Safety Systems"
  else "Unknown Group (ID: " ++ toString g ++ ")"

/-- Discovery-mode test of `_compare_ticket`:
`'priority' not in sent_email or 'type' not in sent_email or
'category' not in sent_email`. -/
def isDiscovery (s : SentEmail) : Bool :=
  s.priority.isNone || s.type.isNone || s.category.isNone

/-- `[part.strip() for part in expected_category.split('>')]`. -/
def parseCategoryParts (s : String) : List String :=
  (pySplit s ">").map pyStrip

/-- Python `x or d` over an optional string: `d` when the value is
absent or empty, since Python treats the empty string as falsy. -/
def pyOr (x : Option String) (d : String) : String :=
  match x with
  | some s => if s.isEmpty then d else s
  | none => d

/-- `if b then 1 else 0`, for the `match_count += 1` accumulations. -/
def bool2nat (b : Bool) : Nat :=
  if b then 1 else 0

/-- The normal-mode count accumulation of `_compare_ticket`: each of
the eight fields adds 1 to `match_count` when it matches and 1 to
`mismatch_count` otherwise (the unassigned-group branch is the
`gm = false` case). -/
def normalCounts (pm um im tm cm sm itm gm : Bool) : Nat × Nat :=
  (bool2nat pm + bool2nat um + bool2nat im + bool2nat tm +
     bool2nat cm + bool2nat sm + bool2nat itm + bool2nat gm,
   bool2nat (!pm) + bool2nat (!um) + bool2nat (!im) + bool2nat (!tm) +
     bool2nat (!cm) + bool2nat (!sm) + bool2nat (!itm) + bool2nat (!gm))

/-- `_compare_ticket`.  The `expected_group` parameter of the Python
method is accepted but never read in its body, so it is omitted here.
In normal mode the dict keys `priority`/`type`/`category` are present
(otherwise discovery mode is taken), so the `getD` defaults on those
reads are unreachable. -/
def compareTicket (sent : SentEmail) (fs : FsTicket) : VerificationResult :=
  let discovery := isDiscovery sent
  let fs_priority := fs.priority
  let fs_urgency := fs.urgency.getD 1
  let fs_impact := fs.impact.getD 1
  let fs_category := fs.category
  let fs_sub_category := fs.sub_category
  let fs_item := fs.item
  let fs_group_id := fs.group_id
  let fs_ticket_type := if fs.type == some "Incident" then "Incident" else "Service Request"
  if discovery then
    let comps : Comparisons :=
      { priority := ⟨"Discovery Mode", fsPriorityName fs_priority, none⟩
        urgency := ⟨"Discovery Mode", (fsUrgencyMap fs_urgency).getD ("Unknown (" ++ toString fs_urgency ++ ")"), none⟩
        impact := ⟨"Discovery Mode", (fsImpactMap fs_impact).getD ("Unknown (" ++ toString fs_impact ++ ")"), none⟩
        type := ⟨"Discovery Mode", fs_ticket_type, none⟩
        category := ⟨"Discovery Mode", pyOr fs_category "Not Set", none⟩
        sub_category := ⟨"Discovery Mode", pyOr fs_sub_category "Not Set", none⟩
        item := ⟨"Discovery Mode", pyOr fs_item "Not Set", none⟩
        group :=
          match fs_group_id with
          | some g => ⟨"Discovery Mode", getGroupName g, none⟩
          | none => ⟨"Discovery Mode", "Unassigned", none⟩ }
    { ticket_number := sent.number
      status := "FOUND"
      freshservice_id := some fs.id
      subject := sent.subject
      comparisons := some comps
      overall_result := "DISCOVERY"
      match_count := 0
      mismatch_count := 0 }
  else
    let expected_priority := sent.priority.getD ""
    let expected_type := sent.type.getD ""
    let expected_category := sent.category.getD ""
    let category_parts := parseCategoryParts expected_category
    let expected_cat := category_parts[0]?
    let expected_subcat := category_parts[1]?
    let expected_item := category_parts[2]?
    let expected_priority_num := priorityNameToNumber expected_priority
    let priority_match := fs_priority == some expected_priority_num
    let expected_urgency := getExpectedUrgencyFromPriority expected_priority
    let urgency_match := checkUrgencyMatch expected_urgency fs_urgency
    let expected_impact := getExpectedImpactFromPriority expected_priority
    let impact_match := checkImpactMatch expected_impact fs_impact
    let type_match := fs_ticket_type == expected_type
    let category_match := fs_category == expected_cat
    let subcat_match := fs_sub_category == expected_subcat
    let item_match := fs_item == expected_item
    let group_match :=
      match fs_group_id with
      | some g => VALID_GROUP_IDS.contains g
      | none => false
    let counts := normalCounts priority_match urgency_match impact_match type_match
      category_match subcat_match item_match group_match
    let comps : Comparisons :=
      { priority := ⟨expected_priority, fsPriorityName fs_priority, some priority_match⟩
        urgency := ⟨expected_urgency, (fsUrgencyMap fs_urgency).getD ("Unknown (" ++ toString fs_urgency ++ ")"), some urgency_match⟩
        impact := ⟨expected_impact, (fsImpactMap fs_impact).getD ("Unknown (" ++ toString fs_impact ++ ")"), some impact_match⟩
        type := ⟨expected_type, fs_ticket_type, some type_match⟩
        category := ⟨pyOr expected_cat "N/A", pyOr fs_category "Not Set", some category_match⟩
        sub_category := ⟨pyOr expected_subcat "N/A", pyOr fs_sub_category "Not Set", some subcat_match⟩
        item := ⟨pyOr expected_item "N/A", pyOr fs_item "Not Set", some item_match⟩
        group :=
          match fs_group_id with
          | some g => ⟨"One of 6 valid groups", getGroupName g, some (VALID_GROUP_IDS.contains g)⟩
          | none => ⟨"One of 6 valid groups", "Unassigned", some false⟩ }
    { ticket_number := sent.number
      status := "FOUND"
      freshservice_id := some fs.id
      subject := sent.subject
      comparisons := some comps
      overall_result := if counts.2 = 0 then "PASS" else "FAIL"
      match_count := counts.1
      mismatch_count := counts.2 }

/-- The NOT_FOUND result emitted by `verify_batch` when no ticket
matches a sent record (`comparisons` is the empty dict). -/
def notFoundResult (sent : SentEmail) : VerificationResult :=
  { ticket_number := sent.number
    status := "NOT_FOUND"
    freshservice_id := none
    subject := sent.subject
    comparisons := none
    overall_result := "NOT_FOUND"
    match_count := 0
    mismatch_count := 0 }

/-- The subject tag `[TEST-TKT-{n}]`. -/
def subjectTag (n : Nat) : String :=
  "[TEST-TKT-" ++ toString n ++ "]"

/-- The per-ticket test of the matching loop in `verify_batch`: the
subject contains the tag and the id is not in `matched_fs_tickets`
(a Python set, modelled as a list queried by membership). -/
def ticketMatches (tag : String) (used : List Nat) (t : FsTicket) : Bool :=
  strContains t.subject tag && !(decide (t.id ∈ used))

/-- The inner `for fs_ticket in fs_tickets` scan: first ticket whose
subject contains the tag and whose id is not yet consumed. -/
def findMatchingTicket (tag : String) (used : List Nat) : List FsTicket → Option FsTicket
  | [] => none
  | t :: rest =>
      if ticketMatches tag used t then some t
      else findMatchingTicket tag used rest

/-- The outer matching loop of `verify_batch`: each sent record, in
input order, is bound to `findMatchingTicket` over the candidate list
with the consumed-id set accumulated so far (the id of a bound ticket
is added to `matched_fs_tickets`). -/
def matchTickets (tickets : List FsTicket) (used : List Nat) : List SentEmail → List (SentEmail × Option FsTicket)
  | [] => []
  | s :: rest =>
      match findMatchingTicket (subjectTag s.number) used tickets with
      | some t => (s, some t) :: matchTickets tickets (t.id :: used) rest
      | none => (s, none) :: matchTickets tickets used rest

/-- Ids of the tickets bound in an assignment list. -/
def boundIds (asg : List (SentEmail × Option FsTicket)) : List Nat :=
  asg.foldr (fun p acc => match p.2 with | some t => t.id :: acc | none => acc) []

/-- The `verification_results` list of `verify_batch`: matched records
go through `_compare_ticket`, the rest get a NOT_FOUND result. -/
def verifyResults (sents : List SentEmail) (tickets : List FsTicket) : List VerificationResult :=
  (matchTickets tickets [] sents).map
    (fun p => match p.2 with
      | some t => compareTicket p.1 t
      | none => notFoundResult p.1)

/-- The ticket source consumed by `verify_batch`: the behaviour of
`fs_client.get_tickets_by_email(email, updated_since)` as a function
of its two arguments. -/
structure TicketSource where
  fetch : Option String → Option String → List FsTicket

/-- The search phase of `verify_batch` (Methods 1–3).  Returns the
candidate list finally used and, in order, the `updated_since`
arguments of the searches actually issued (`some ts` = batch start
time, `some ts24` = batch start minus 24 hours, `none` = no time
filter).  The email argument is `sender_email` throughout (Method 1
passes `None` explicitly when the sender is unknown, Methods 2 and 3
pass the `sender_email` variable, which is then also `None`). -/
def searchWithFallback (src : TicketSource) (sender : Option String) (ts ts24 : String)
    (sents : List SentEmail) : List FsTicket × List (Option String) :=
  let t1 := src.fetch sender (some ts)
  let s1 : List FsTicket × List (Option String) := (t1, [some ts])
  let s2 :=
    if t1.isEmpty && !sents.isEmpty then
      (src.fetch sender (some ts24), s1.2 ++ [some ts24])
    else s1
  if s2.1.isEmpty then (src.fetch sender none, s2.2 ++ [none]) else s2

/-- The pagination loop of `FreshserviceClient.get_tickets_by_email`.
`pages p` is the ticket list the API returns for page `p` (pages are
numbered from 1).  The Python loop is `while True`; `fuel` bounds the
number of page requests of a run, so any finite execution corresponds
to a sufficiently large `fuel`.  The loop breaks on an empty page, or
after appending a page shorter than `perPage`. -/
def fetchPages (pages : Nat → List FsTicket) (perPage : Nat) : Nat → Nat → List FsTicket → List FsTicket
  | _, 0, acc => acc
  | page, fuel + 1, acc =>
      let ts := pages page
      if ts.isEmpty then acc
      else if ts.length < perPage then acc ++ ts
      else fetchPages pages perPage (page + 1) fuel (acc ++ ts)

/-- `get_tickets_by_email` pagination, started at page 1 with an empty
accumulator (default `per_page = 100`). -/
def getTicketsByEmail (pages : Nat → List FsTicket) (perPage fuel : Nat) : List FsTicket :=
  fetchPages pages perPage 1 fuel []

/-- Field names iterated by `_generate_summary` for `field_stats`. -/
inductive FieldName where
  | priority | urgency | impact | type | category | sub_category | item | group
  deriving Repr, DecidableEq

/-- Dict-style access `result['comparisons'][field]`. -/
def getComp (c : Comparisons) : FieldName → FieldComparison
  | .priority => c.priority
  | .urgency => c.urgency
  | .impact => c.impact
  | .type => c.type
  | .category => c.category
  | .sub_category => c.sub_category
  | .item => c.item
  | .group => c.group

/-- One `field_stats` entry. -/
structure FieldStat where
  correct : Nat
  total : Nat
  percentage : Rat
  deriving Repr, DecidableEq

/-- The per-field accuracy loop of `_generate_summary`: over FOUND
results whose comparisons contain the field, count entries with a
non-null `match` and those with `match = True`. -/
def fieldStat (rs : List VerificationResult) (f : FieldName) : FieldStat :=
  let evals := rs.filterMap
    (fun r => if r.status == "FOUND" then r.comparisons.map (fun c => getComp c f) else none)
  let checked := evals.filter (fun fc => fc.matchRes.isSome)
  let correct := (checked.filter (fun fc => fc.matchRes == some true)).length
  { correct := correct
    total := checked.length
    percentage := if checked.length > 0 then (correct : Rat) / (checked.length : Rat) * 100 else 0 }

/-- The `group_distribution` tally of `_generate_summary`: how many
FOUND results record `name` as the group comparison's `actual`. -/
def groupDistribution (rs : List VerificationResult) (name : String) : Nat :=
  (rs.filter (fun r => r.status == "FOUND" &&
    (match r.comparisons with
     | some c => c.group.actual == name
     | none => false))).length

/-- The summary dict of `_generate_summary` (the Python nests the
group distribution inside `field_stats`; it is a sibling field here). -/
structure Summary where
  total_tickets : Nat
  found : Nat
  not_found : Nat
  passed : Nat
  failed : Nat
  pass_rate : Rat
  field_stats : FieldName → FieldStat
  group_distribution : String → Nat

/-- `_generate_summary`. -/
def generateSummary (rs : List VerificationResult) : Summary :=
  let found := (rs.filter (fun r => r.status == "FOUND")).length
  let passed := (rs.filter (fun r => r.overall_result == "PASS")).length
  { total_tickets := rs.length
    found := found
    not_found := (rs.filter (fun r => r.status == "NOT_FOUND")).length
    passed := passed
    failed := (rs.filter (fun r => r.overall_result == "FAIL")).length
    pass_rate := if found > 0 then (passed : Rat) / (found : Rat) * 100 else 0
    field_stats := fieldStat rs
    group_distribution := groupDistribution rs }

/-- The set of urgency labels valid for a priority, read directly
from `PRIORITY_TO_URGENCY_IMPACT` (empty for unknown priorities).
This is the reference set the disjunctive expected string must be
equivalent to. -/
def expectedUrgencyLabels (p : String) : List String :=
  match priorityToUrgencyImpact p with
  | some (.single u _) => [urgLabel u]
  | some (.multiple pairs) => (pairs.map (fun q => urgLabel q.1)).eraseDups
  | none => []

/-- The set of impact labels valid for a priority. -/
def expectedImpactLabels (p : String) : List String :=
  match priorityToUrgencyImpact p with
  | some (.single _ i) => [impLabel i]
  | some (.multiple pairs) => (pairs.map (fun q => impLabel q.2)).eraseDups
  | none => []

/-- The eight entries of a `comparisons` dict as a list, in the order
`_compare_ticket` inserts them. -/
def compList (c : Comparisons) : List FieldComparison :=
  [c.priority, c.urgency, c.impact, c.type, c.category, c.sub_category, c.item, c.group]

/-- The comparisons map of a `_compare_ticket` result (always
populated; the default is unreachable). -/
def comparedFields (sent : SentEmail) (fs : FsTicket) : Comparisons :=
  ((compareTicket sent fs).comparisons).getD
    ⟨⟨"", "", none⟩, ⟨"", "", none⟩, ⟨"", "", none⟩, ⟨"", "", none⟩,
     ⟨"", "", none⟩, ⟨"", "", none⟩, ⟨"", "", none⟩, ⟨"", "", none⟩⟩

/-! ### Concrete inputs used by witnesses and counterexamples -/

/-- Scenario A sent record: sequence 42, Priority 1, Incident,
category path `Network>VPN>Down`. -/
def scenarioASent : SentEmail :=
  ⟨42, "[TEST-TKT-42] VPN down", some "Priority 1", some "Incident", some "Network>VPN>Down"⟩

/-- Scenario A matching ticket. -/
def scenarioATicket : FsTicket :=
  ⟨101, "[TEST-TKT-42] VPN down", some 4, some 3, some 3, some "Incident",
   some "Network", some "VPN", some "Down", some 76000128925⟩

/-- A discovery-mode record (no expected priority). -/
def discSent : SentEmail :=
  ⟨7, "[TEST-TKT-7] printer", none, some "Incident", some "Hardware"⟩

/-- A fully specified record with an empty category path (degenerate
path: a single empty segment, no sub-category, no item). -/
def emptyCatSent : SentEmail :=
  ⟨9, "[TEST-TKT-9] x", some "Priority 4", some "Incident", some ""⟩

/-- Two sent records carrying the same sequence number, hence the
same subject tag (an ambiguous pair for the matcher). -/
def dupSentA : SentEmail := ⟨5, "s1", none, none, none⟩

/-- Second record of the ambiguous pair. -/
def dupSentB : SentEmail := ⟨5, "s2", none, none, none⟩

/-- First of two tickets whose subjects both contain `[TEST-TKT-5]`. -/
def dupTicketA : FsTicket :=
  ⟨10, "[TEST-TKT-5] first", none, none, none, none, none, none, none, none⟩

/-- Second duplicate-matching ticket. -/
def dupTicketB : FsTicket :=
  ⟨11, "[TEST-TKT-5] second", none, none, none, none, none, none, none, none⟩

/-- A ticket source that returns no tickets for any query. -/
def emptySource : TicketSource :=
  ⟨fun _ _ => []⟩

/-- A contentless ticket for the pagination counterexample. -/
def dummyTicket : FsTicket :=
  ⟨0, "", none, none, none, none, none, none, none, none⟩

/-- A page function yielding six full pages of 100 tickets and
nothing afterwards (600 tickets in total). -/
def pagesSixFull (p : Nat) : List FsTicket :=
  if 1 ≤ p ∧ p ≤ 6 then List.replicate 100 dummyTicket else []

/-! ### Helper lemmas on the matcher -/

/-- A found ticket satisfies the match predicate and occurs in the
list, with no satisfying ticket before it (first-match). -/
theorem findMatchingTicket_eq_some_iff (tag : String) (used : List Nat)
    (ts : List FsTicket) (t : FsTicket) :
    findMatchingTicket tag used ts = some t ↔
      ∃ pre post, ts = pre ++ t :: post ∧ ticketMatches tag used t = true ∧
        ∀ u ∈ pre, ticketMatches tag used u = false := by
  induction ts with
  | nil =>
      simp [findMatchingTicket]
  | cons a ts ih =>
      by_cases hm : ticketMatches tag used a
      · simp only [findMatchingTicket, hm, if_pos]
        constructor
        · rintro ⟨rfl⟩
          exact ⟨[], ts, rfl, hm, by simp⟩
        · rintro ⟨pre, post, heq, hmt, hpre⟩
          cases pre with
          | nil => simp_all
          | cons b pre =>
              have hb : b = a := by simpa using (congrArg (fun l => l.head?) heq).symm
              subst hb
              exact absurd hm (by simp [hpre b (by simp)])
      · simp only [findMatchingTicket, hm, if_neg, Bool.false_eq_true, not_false_iff]
        rw [ih]
        constructor
        · rintro ⟨pre, post, rfl, hmt, hpre⟩
          refine ⟨a :: pre, post, rfl, hmt, ?_⟩
          intro u hu
          rcases List.mem_cons.mp hu with rfl | hu
          · simpa using hm
          · exact hpre u hu
        · rintro ⟨pre, post, heq, hmt, hpre⟩
          cases pre with
          | nil =>
              exfalso
              have : a = t := by simpa using congrArg (fun l => l.head?) heq
              exact hm (this ▸ hmt)
          | cons b pre =>
              have hb : b = a := by simpa using (congrArg (fun l => l.head?) heq).symm
              subst hb
              have htl : ts = pre ++ t :: post := by simpa using congrArg List.tail heq
              exact ⟨pre, post, htl, hmt, fun u hu => hpre u (by simp [hu])⟩

/-- A ticket bound by the scan is not already consumed. -/
theorem findMatchingTicket_not_used {tag : String} {used : List Nat}
    {ts : List FsTicket} {t : FsTicket}
    (h : findMatchingTicket tag used ts = some t) : t.id ∉ used := by
  rcases (findMatchingTicket_eq_some_iff tag used ts t).mp h with ⟨_, _, _, hm, _⟩
  have := (Bool.and_eq_true _ _).mp hm
  simpa using this.2

/-- `findMatchingTicket` depends on the consumed set only through
membership. -/
theorem findMatchingTicket_congr {a b : List Nat}
    (hab : ∀ x, x ∈ a ↔ x ∈ b) (tag : String) (ts : List FsTicket) :
    findMatchingTicket tag a ts = findMatchingTicket tag b ts := by
  induction ts with
  | nil => rfl
  | cons t ts ih =>
      have hm : ticketMatches tag a t = ticketMatches tag b t := by
        simp [ticketMatches, decide_eq_decide.mpr (hab t.id)]
      simp only [findMatchingTicket, hm, ih]

/-- `boundIds` over a cons with a bound ticket. -/
theorem boundIds_cons_some (s : SentEmail) (t : FsTicket)
    (l : List (SentEmail × Option FsTicket)) :
    boundIds ((s, some t) :: l) = t.id :: boundIds l := rfl

/-- `boundIds` over a cons with an unbound record. -/
theorem boundIds_cons_none (s : SentEmail)
    (l : List (SentEmail × Option FsTicket)) :
    boundIds ((s, none) :: l) = boundIds l := rfl

/-- The first components of the assignment list are the sent records
in input order. -/
theorem matchTickets_fst (tickets : List FsTicket) :
    ∀ (sents : List SentEmail) (used : List Nat),
      (matchTickets tickets used sents).map Prod.fst = sents := by
  intro sents
  induction sents with
  | nil => intro used; rfl
  | cons s rest ih =>
      intro used
      cases hf : findMatchingTicket (subjectTag s.number) used tickets with
      | some t => simp [matchTickets, hf, ih]
      | none => simp [matchTickets, hf, ih]

/-- The bound ids of a run are distinct and disjoint from the initial
consumed set. -/
theorem matchTickets_boundIds (tickets : List FsTicket) :
    ∀ (sents : List SentEmail) (used : List Nat),
      (boundIds (matchTickets tickets used sents)).Nodup ∧
        ∀ i ∈ boundIds (matchTickets tickets used sents), i ∉ used := by
  intro sents
  induction sents with
  | nil => intro used; simp [matchTickets, boundIds]
  | cons s rest ih =>
      intro used
      cases hf : findMatchingTicket (subjectTag s.number) used tickets with
      | none =>
          simp only [matchTickets, hf, boundIds_cons_none]
          exact ih used
      | some t =>
          obtain ⟨hnd, hnu⟩ := ih (t.id :: used)
          simp only [matchTickets, hf, boundIds_cons_some]
          constructor
          · exact List.nodup_cons.mpr ⟨fun hmem => (hnu t.id hmem) (by simp), hnd⟩
          · intro i hi
            rcases List.mem_cons.mp hi with rfl | hi
            · exact findMatchingTicket_not_used hf
            · exact fun hiu => (hnu i hi) (by simp [hiu])

/-- Element `k` of the assignment list is the result of the
first-match scan run against the ids bound by the earlier records
(plus the initial consumed set). -/
theorem matchTickets_get (tickets : List FsTicket) :
    ∀ (sents : List SentEmail) (used : List Nat) (k : Nat)
      (hk : k < (matchTickets tickets used sents).length),
      ((matchTickets tickets used sents).get ⟨k, hk⟩).2 =
        findMatchingTicket
          (subjectTag (((matchTickets tickets used sents).get ⟨k, hk⟩).1.number))
          (boundIds ((matchTickets tickets used sents).take k) ++ used) tickets := by
  intro sents
  induction sents with
  | nil => intro used k hk; simp [matchTickets] at hk
  | cons s rest ih =>
      intro used k hk
      cases hf : findMatchingTicket (subjectTag s.number) used tickets with
      | some t =>
          have hstep : matchTickets tickets used (s :: rest) =
              (s, some t) :: matchTickets tickets (t.id :: used) rest := by
            simp [matchTickets, hf]
          cases k with
          | zero => simp [hstep, hf, boundIds]
          | succ k =>
              have hk2 : k < (matchTickets tickets (t.id :: used) rest).length := by
                have := hk
                rw [hstep] at this
                simpa using this
              have hih := ih (t.id :: used) k hk2
              have hget : ((matchTickets tickets used (s :: rest)).get ⟨k + 1, hk⟩) =
                  ((matchTickets tickets (t.id :: used) rest).get ⟨k, hk2⟩) := by
                simp [hstep]
              rw [hget, hih]
              have htake : (matchTickets tickets used (s :: rest)).take (k + 1) =
                  (s, some t) :: (matchTickets tickets (t.id :: used) rest).take k := by
                simp [hstep]
              rw [htake, boundIds_cons_some]
              exact findMatchingTicket_congr (by intro x; simp; tauto) _ tickets
      | none =>
          have hstep : matchTickets tickets used (s :: rest) =
              (s, none) :: matchTickets tickets used rest := by
            simp [matchTickets, hf]
          cases k with
          | zero => simp [hstep, hf, boundIds]
          | succ k =>
              have hk2 : k < (matchTickets tickets used rest).length := by
                have := hk
                rw [hstep] at this
                simpa using this
              have hih := ih used k hk2
              have hget : ((matchTickets tickets used (s :: rest)).get ⟨k + 1, hk⟩) =
                  ((matchTickets tickets used rest).get ⟨k, hk2⟩) := by
                simp [hstep]
              rw [hget, hih]
              have htake : (matchTickets tickets used (s :: rest)).take (k + 1) =
                  (s, none) :: (matchTickets tickets used rest).take k := by
                simp [hstep]
              rw [htake, boundIds_cons_none]

/-- A result whose overall verdict is not PASS leaves the `passed`
count unchanged. -/
theorem summary_passed_cons (r : VerificationResult) (rs : List VerificationResult)
    (h : r.overall_result ≠ "PASS") :
    (generateSummary (r :: rs)).passed = (generateSummary rs).passed := by
  simp [generateSummary, List.filter_cons, h]

/-- A result whose overall verdict is not FAIL leaves the `failed`
count unchanged. -/
theorem summary_failed_cons (r : VerificationResult) (rs : List VerificationResult)
    (h : r.overall_result ≠ "FAIL") :
    (generateSummary (r :: rs)).failed = (generateSummary rs).failed := by
  simp [generateSummary, List.filter_cons, h]

/-- A FOUND result with comparisons contributes to the group
distribution at its recorded actual group name. -/
theorem groupDistribution_pos {r : VerificationResult} {rs : List VerificationResult}
    (hmem : r ∈ rs) (hst : r.status = "FOUND") {c : Comparisons}
    (hc : r.comparisons = some c) :
    1 ≤ groupDistribution rs c.group.actual := by
  unfold groupDistribution
  have hmem2 : r ∈ rs.filter (fun x => x.status == "FOUND" &&
      (match x.comparisons with
       | some cc => cc.group.actual == c.group.actual
       | none => false)) :=
    List.mem_filter.mpr ⟨hmem, by simp [hst, hc]⟩
  exact List.length_pos.mpr (List.ne_nil_of_mem hmem2)

/-- The impact label table coincides with the urgency one. -/
theorem impLabel_eq_urgLabel (n : Int) : impLabel n = urgLabel n := rfl

/-- Length of a full pagination run: with `k` full pages from `page`
on and a short page after them, the loop returns the accumulator plus
every ticket of those `k + 1` pages — it never truncates. -/
theorem fetchPages_length (pages : Nat → List FsTicket) (perPage : Nat) :
    ∀ (k page fuel : Nat) (acc : List FsTicket),
      0 < perPage →
      (∀ i, i < k → (pages (page + i)).length = perPage) →
      (pages (page + k)).length < perPage →
      k < fuel →
      (fetchPages pages perPage page fuel acc).length =
        acc.length + k * perPage + (pages (page + k)).length := by
  intro k
  induction k with
  | zero =>
      intro page fuel acc hpp hfull hshort hfuel
      cases fuel with
      | zero => omega
      | succ fuel =>
          have hsh : (pages page).length < perPage := by simpa using hshort
          by_cases he : (pages page).isEmpty
          · have h0 : pages page = [] := by simpa [List.isEmpty_iff] using he
            simp [fetchPages, he, h0]
          · simp [fetchPages, he, hsh]
  | succ k ih =>
      intro page fuel acc hpp hfull hshort hfuel
      cases fuel with
      | zero => omega
      | succ fuel =>
          have hlen : (pages page).length = perPage := by
            simpa using hfull 0 (by omega)
          have hne : (pages page).isEmpty = false := by
            cases hh : pages page with
            | nil => rw [hh] at hlen; simp at hlen; omega
            | cons a l => rfl
          have hnotlt : ¬ (pages page).length < perPage := by omega
          have hrec := ih (page + 1) fuel (acc ++ pages page) hpp
            (fun i hi => by
              have e : page + 1 + i = page + (i + 1) := by omega
              rw [e]
              exact hfull (i + 1) (by omega))
            (by
              have e : page + 1 + k = page + (k + 1) := by omega
              rw [e]
              exact hshort)
            (by omega)
          simp only [fetchPages, hne, Bool.false_eq_true, if_false, hnotlt, if_neg,
            not_false_iff]
          rw [hrec]
          have e : page + 1 + k = page + (k + 1) := by omega
          rw [e, List.length_append, hlen]
          ring

/-! ### Claim theorems -/

/-- Claim C2: for every list of sent records and every candidate
ticket list, the matcher processes records in input order, binds each
record to the first unconsumed ticket whose subject contains the
record's tag, and no two distinct records are ever bound to the same
ticket id (exactly-once consumption). -/
theorem claim2_matcher_exactly_once (sents : List SentEmail) (tickets : List FsTicket) :
    (matchTickets tickets [] sents).map Prod.fst = sents ∧
    (boundIds (matchTickets tickets [] sents)).Nodup ∧
    ∀ (k : Nat) (hk : k < (matchTickets tickets [] sents).length) (t : FsTicket),
      ((matchTickets tickets [] sents).get ⟨k, hk⟩).2 = some t →
      ∃ pre post, tickets = pre ++ t :: post ∧
        ticketMatches (subjectTag (((matchTickets tickets [] sents).get ⟨k, hk⟩).1.number))
          (boundIds ((matchTickets tickets [] sents).take k)) t = true ∧
        ∀ u ∈ pre,
          ticketMatches (subjectTag (((matchTickets tickets [] sents).get ⟨k, hk⟩).1.number))
            (boundIds ((matchTickets tickets [] sents).take k)) u = false := by
  refine ⟨matchTickets_fst tickets sents [], (matchTickets_boundIds tickets sents []).1, ?_⟩
  intro k hk t hbound
  have hget := matchTickets_get tickets sents [] k hk
  rw [hbound] at hget
  rw [List.append_nil] at hget
  exact (findMatchingTicket_eq_some_iff _ _ _ _).mp hget.symm

/-- Claim C2 witness: two records with the same tag bound against two
duplicate-matching tickets consume distinct ids, in list order. -/
theorem claim2_witness :
    boundIds (matchTickets [dupTicketA, dupTicketB] [] [dupSentA, dupSentB]) = [10, 11] ∧
    (boundIds (matchTickets [dupTicketA, dupTicketB] [] [dupSentA, dupSentB])).Nodup :=
  ⟨by decide, (claim2_matcher_exactly_once [dupSentA, dupSentB] [dupTicketA, dupTicketB]).2.1⟩

/-- Claim C10: for every FOUND comparison result, the match and
mismatch counts sum to 8 in normal mode (one boolean verdict for each
of the eight fields) and to 0 in discovery mode. -/
theorem claim10_field_count (sent : SentEmail) (fs : FsTicket) :
    (isDiscovery sent = true →
      (compareTicket sent fs).match_count + (compareTicket sent fs).mismatch_count = 0) ∧
    (isDiscovery sent = false →
      (compareTicket sent fs).match_count + (compareTicket sent fs).mismatch_count = 8) := by
  have hsum : ∀ a b c d e f g h : Bool,
      (normalCounts a b c d e f g h).1 + (normalCounts a b c d e f g h).2 = 8 := by decide
  constructor <;> intro h <;> simp only [compareTicket, h, if_true, if_false, Bool.false_eq_true]
  exact hsum _ _ _ _ _ _ _ _

/-- Claim C10 witness: the counts at a concrete discovery record and
a concrete normal record. -/
theorem claim10_witness :
    (compareTicket discSent scenarioATicket).match_count +
      (compareTicket discSent scenarioATicket).mismatch_count = 0 ∧
    (compareTicket scenarioASent scenarioATicket).match_count +
      (compareTicket scenarioASent scenarioATicket).mismatch_count = 8 :=
  ⟨(claim10_field_count discSent scenarioATicket).1 (by decide),
   (claim10_field_count scenarioASent scenarioATicket).2 (by decide)⟩

/-- Claim C1 counterexample: on the scenario-A record and ticket the
comparator's `match_count` is not 7 (the code also counts the group
field, giving 8). -/
theorem claim1_counterexample :
    ¬ ((compareTicket scenarioASent scenarioATicket).match_count = 7) := by decide

/-- Claim C1 (amended): for the scenario-A record and ticket the
comparator produces a FOUND result in which every one of the eight
field comparisons has `match = true`, `overall_result = PASS`,
`match_count = 8` and `mismatch_count = 0`. -/
theorem claim1_scenarioA :
    (compareTicket scenarioASent scenarioATicket).status = "FOUND" ∧
    ((compareTicket scenarioASent scenarioATicket).comparisons.map
        (fun c => (compList c).map FieldComparison.matchRes)) =
      some (List.replicate 8 (some true)) ∧
    (compareTicket scenarioASent scenarioATicket).overall_result = "PASS" ∧
    (compareTicket scenarioASent scenarioATicket).match_count = 8 ∧
    (compareTicket scenarioASent scenarioATicket).mismatch_count = 0 := by decide

/-- Claim C3: in discovery mode every field comparison has
`expected = "Discovery Mode"` and `match = null`, the counts are 0,
the overall result is DISCOVERY, and such a result changes neither
the `passed` nor the `failed` count of the summary. -/
theorem claim3_discovery_purity (sent : SentEmail) (fs : FsTicket)
    (rs : List VerificationResult) (hd : isDiscovery sent = true) :
    ((compareTicket sent fs).comparisons.map
        (fun c => (compList c).map (fun fc => (fc.expected, fc.matchRes)))) =
      some (List.replicate 8 ("Discovery Mode", (none : Option Bool))) ∧
    (compareTicket sent fs).match_count = 0 ∧
    (compareTicket sent fs).mismatch_count = 0 ∧
    (compareTicket sent fs).overall_result = "DISCOVERY" ∧
    (generateSummary (compareTicket sent fs :: rs)).passed = (generateSummary rs).passed ∧
    (generateSummary (compareTicket sent fs :: rs)).failed = (generateSummary rs).failed := by
  have hov : (compareTicket sent fs).overall_result = "DISCOVERY" := by
    simp [compareTicket, hd]
  refine ⟨?_, ?_, ?_, hov, ?_, ?_⟩
  · cases hg : fs.group_id <;> simp [compareTicket, hd, hg, compList, List.replicate]
  · simp [compareTicket, hd]
  · simp [compareTicket, hd]
  · exact summary_passed_cons _ rs (by rw [hov]; decide)
  · exact summary_failed_cons _ rs (by rw [hov]; decide)

/-- Claim C3 witness: the discovery record against the scenario-A
ticket yields DISCOVERY and leaves the passed count untouched. -/
theorem claim3_witness :
    (compareTicket discSent scenarioATicket).overall_result = "DISCOVERY" ∧
    (generateSummary [compareTicket discSent scenarioATicket]).passed =
      (generateSummary []).passed :=
  ⟨(claim3_discovery_purity discSent scenarioATicket [] (by decide)).2.2.2.1,
   (claim3_discovery_purity discSent scenarioATicket [] (by decide)).2.2.2.2.1⟩

/-- Claim C4 counterexample: with an empty sent list and an initial
search returning zero tickets, the unfiltered search is issued while
the 24-hour-widened search is never issued — the claim fails for this
batch input. -/
theorem claim4_counterexample :
    (searchWithFallback emptySource none "T" "T24" []).2 = [some "T", none] ∧
    some "T24" ∉ (searchWithFallback emptySource none "T" "T24" []).2 := by
  constructor
  · rfl
  · decide

/-- Claim C4 (amended): for every batch with at least one sent
record, whenever the initial time-filtered search returns zero
tickets the widened search is issued next, and the unfiltered search
is issued only after the widened search also returns zero tickets. -/
theorem claim4_widen_order (src : TicketSource) (sender : Option String) (ts ts24 : String)
    (sents : List SentEmail) (hne : sents ≠ [])
    (h1 : src.fetch sender (some ts) = []) :
    (src.fetch sender (some ts24) = [] →
      (searchWithFallback src sender ts ts24 sents).2 = [some ts, some ts24, none]) ∧
    (src.fetch sender (some ts24) ≠ [] →
      (searchWithFallback src sender ts ts24 sents).2 = [some ts, some ts24]) := by
  have hs : sents.isEmpty = false := by
    cases sents with
    | nil => simp at hne
    | cons a l => rfl
  constructor <;> intro h2
  · simp [searchWithFallback, h1, hs, h2]
  · have h2e : (src.fetch sender (some ts24)).isEmpty = false := by
      cases hh : src.fetch sender (some ts24) with
      | nil => exact absurd hh h2
      | cons a l => rfl
    simp [searchWithFallback, h1, hs, h2e]

/-- Claim C4 witness: with a single sent record and a source that
always returns zero tickets, the three searches are issued in the
required order. -/
theorem claim4_witness :
    (searchWithFallback emptySource none "T" "T24" [dupSentA]).2 =
      [some "T", some "T24", none] :=
  (claim4_widen_order emptySource none "T" "T24" [dupSentA] (by simp) rfl).1 rfl

/-- Claim C5 counterexample: the verifier's unfiltered fallback uses
`get_tickets_by_email`, which has no 500-ticket cap — a source with
six full pages of 100 yields 600 tickets. -/
theorem claim5_counterexample :
    500 < (getTicketsByEmail pagesSixFull 100 10).length := by
  have h := fetchPages_length pagesSixFull 100 6 1 10 [] (by norm_num)
    (by decide) (by decide) (by norm_num)
  have h7 : (pagesSixFull (1 + 6)).length = 0 := by decide
  simp only [getTicketsByEmail]
  omega

/-- Claim C5 (amended): the fallback search paginates until a page
returns fewer than `per_page` tickets (or none) and returns every
ticket the source yields up to that page — there is no hard cap of
500, so the result can exceed 500 tickets. -/
theorem claim5_no_cap (pages : Nat → List FsTicket) (perPage fuel k : Nat)
    (hpp : 0 < perPage)
    (hfull : ∀ i, i < k → (pages (1 + i)).length = perPage)
    (hshort : (pages (1 + k)).length < perPage)
    (hfuel : k < fuel) :
    (getTicketsByEmail pages perPage fuel).length =
      k * perPage + (pages (1 + k)).length := by
  have h := fetchPages_length pages perPage k 1 fuel [] hpp hfull hshort hfuel
  simpa [getTicketsByEmail] using h

/-- Claim C5 witness: the six-full-pages source returns exactly 600
tickets through the uncapped pagination. -/
theorem claim5_witness :
    (getTicketsByEmail pagesSixFull 100 10).length = 600 := by
  have h := claim5_no_cap pagesSixFull 100 10 6 (by norm_num)
    (by decide) (by decide) (by norm_num)
  have h7 : (pagesSixFull (1 + 6)).length = 0 := by decide
  omega

/-- Claim C6: the comparator never fails on a malformed category
path — any segment that cannot be obtained from the split is `none`,
the expected strings fall back to `N/A`, and the comparison completes
with a FOUND result whose verdict is PASS or FAIL. -/
theorem claim6_category_total (s : String) (sent : SentEmail) (fs : FsTicket)
    (hp : sent.priority.isSome = true) (ht : sent.type.isSome = true)
    (hc : sent.category = some s) :
    ((parseCategoryParts s).length ≤ 1 →
      (parseCategoryParts s)[1]? = none ∧ (parseCategoryParts s)[2]? = none) ∧
    ((parseCategoryParts s).length ≤ 2 → (parseCategoryParts s)[2]? = none) ∧
    (compareTicket sent fs).status = "FOUND" ∧
    ((compareTicket sent fs).overall_result = "PASS" ∨
      (compareTicket sent fs).overall_result = "FAIL") ∧
    ((compareTicket sent fs).comparisons.map
        (fun c => (c.category.expected, c.sub_category.expected, c.item.expected))) =
      some (pyOr (parseCategoryParts s)[0]? "N/A",
        pyOr (parseCategoryParts s)[1]? "N/A",
        pyOr (parseCategoryParts s)[2]? "N/A") := by
  have hd : isDiscovery sent = false := by
    rcases Option.isSome_iff_exists.mp hp with ⟨vp, hvp⟩
    rcases Option.isSome_iff_exists.mp ht with ⟨vt, hvt⟩
    simp [isDiscovery, hvp, hvt, hc]
  refine ⟨?_, ?_, ?_, ?_, ?_⟩
  · intro h
    exact ⟨List.getElem?_eq_none (by omega), List.getElem?_eq_none (by omega)⟩
  · intro h
    exact List.getElem?_eq_none (by omega)
  · simp [compareTicket, hd]
  · have hPF : ∀ n : Nat, (if n = 0 then "PASS" else "FAIL") = "PASS" ∨
        (if n = 0 then "PASS" else "FAIL") = "FAIL" := by
      intro n
      split_ifs <;> simp
    simp only [compareTicket, hd, Bool.false_eq_true, if_false]
    exact hPF _
  · cases hg : fs.group_id <;> simp [compareTicket, hd, hg, hc]

/-- Claim C6 witness: the empty category path yields a single empty
segment, absent sub-category and item, and a completed comparison. -/
theorem claim6_witness :
    (parseCategoryParts "")[1]? = none ∧
    (compareTicket emptyCatSent scenarioATicket).status = "FOUND" :=
  ⟨((claim6_category_total "" emptyCatSent scenarioATicket rfl rfl rfl).1 (by decide)).1,
   (claim6_category_total "" emptyCatSent scenarioATicket rfl rfl rfl).2.2.1⟩

/-- Claim C7: for every priority name and actual numeric value the
urgency (resp. impact) match verdict equals membership of the actual
value's label in the expected label set derived from the priority
matrix; in particular for Priority 2 urgency matches 3 (High) and
2 (Medium) but not 1 (Low). -/
theorem claim7_urgency_disjunction (p : String) (a : Int) :
    checkUrgencyMatch (getExpectedUrgencyFromPriority p) a =
      (expectedUrgencyLabels p).contains (urgLabel a) ∧
    checkImpactMatch (getExpectedImpactFromPriority p) a =
      (expectedImpactLabels p).contains (impLabel a) ∧
    checkUrgencyMatch (getExpectedUrgencyFromPriority "Priority 2") 3 = true ∧
    checkUrgencyMatch (getExpectedUrgencyFromPriority "Priority 2") 2 = true ∧
    checkUrgencyMatch (getExpectedUrgencyFromPriority "Priority 2") 1 = false := by
  have ha : urgLabel a = "Low" ∨ urgLabel a = "Medium" ∨ urgLabel a = "High" ∨
      urgLabel a = "" := by
    unfold urgLabel fsUrgencyMap
    split_ifs <;> simp
  have hcases : p = "Priority 1" ∨ p = "Priority 2" ∨ p = "Priority 3" ∨
      p = "Priority 4" ∨
      (p ≠ "Priority 1" ∧ p ≠ "Priority 2" ∧ p ≠ "Priority 3" ∧ p ≠ "Priority 4") := by
    tauto
  refine ⟨?_, ?_, by decide, by decide, by decide⟩ <;>
    rcases hcases with rfl | rfl | rfl | rfl | ⟨h1, h2, h3, h4⟩ <;>
      simp only [checkUrgencyMatch, checkImpactMatch, impLabel_eq_urgLabel] <;>
      first
        | (rcases ha with h | h | h | h <;> rw [h] <;> decide)
        | (simp only [getExpectedUrgencyFromPriority, getExpectedImpactFromPriority,
            expectedUrgencyLabels, expectedImpactLabels, priorityToUrgencyImpact,
            if_neg h1, if_neg h2, if_neg h3, if_neg h4]
           rcases ha with h | h | h | h <;> rw [h] <;> decide)

/-- Claim C8: in normal mode the group verdict is true exactly when
the ticket's group id belongs to the six-id allow-list (a null group
id gives false), and the recorded actual group name of any result of
the comparator contributes to the batch group distribution. -/
theorem claim8_group_allowlist (sent : SentEmail) (fs : FsTicket) :
    (compareTicket sent fs).comparisons = some (comparedFields sent fs) ∧
    (isDiscovery sent = false →
      ((comparedFields sent fs).group.matchRes = some true ↔
        ∃ g, fs.group_id = some g ∧ VALID_GROUP_IDS.contains g = true) ∧
      (fs.group_id = none → (comparedFields sent fs).group.matchRes = some false)) ∧
    ∀ rs, compareTicket sent fs ∈ rs →
      1 ≤ groupDistribution rs (comparedFields sent fs).group.actual := by
  have hstat : (compareTicket sent fs).status = "FOUND" := by
    cases hd : isDiscovery sent <;> simp [compareTicket, hd]
  have hcomp : (compareTicket sent fs).comparisons = some (comparedFields sent fs) := by
    cases hd : isDiscovery sent <;> simp [compareTicket, comparedFields, hd]
  refine ⟨hcomp, ?_, ?_⟩
  · intro hd
    cases hg : fs.group_id with
    | some g =>
        constructor
        · simp [comparedFields, compareTicket, hd, hg]
        · intro h
          simp at h
    | none =>
        constructor
        · simp [comparedFields, compareTicket, hd, hg]
        · intro h
          simp [comparedFields, compareTicket, hd, hg]
  · intro rs hmem
    exact groupDistribution_pos hmem hstat hcomp

/-- Claim C8 witness: the scenario-A ticket's group id is in the
allow-list and its group name is tallied in the distribution. -/
theorem claim8_witness :
    ((comparedFields scenarioASent scenarioATicket).group.matchRes = some true ↔
      ∃ g, scenarioATicket.group_id = some g ∧ VALID_GROUP_IDS.contains g = true) ∧
    1 ≤ groupDistribution [compareTicket scenarioASent scenarioATicket]
        (comparedFields scenarioASent scenarioATicket).group.actual :=
  ⟨((claim8_group_allowlist scenarioASent scenarioATicket).2.1 (by decide)).1,
   (claim8_group_allowlist scenarioASent scenarioATicket).2.2
     [compareTicket scenarioASent scenarioATicket] (by simp)⟩

/-- Claim C9: the summary's pass rate is `passed / found * 100` when
any ticket was found and 0 when none was, with `found` (never the
total) as the denominator. -/
theorem claim9_pass_rate (rs : List VerificationResult) :
    (generateSummary rs).found = (rs.filter (fun r => r.status == "FOUND")).length ∧
    (generateSummary rs).passed = (rs.filter (fun r => r.overall_result == "PASS")).length ∧
    ((generateSummary rs).found = 0 → (generateSummary rs).pass_rate = 0) ∧
    (0 < (generateSummary rs).found →
      (generateSummary rs).pass_rate =
        ((generateSummary rs).passed : Rat) / ((generateSummary rs).found : Rat) * 100) := by
  refine ⟨rfl, rfl, ?_, ?_⟩ <;> intro h
  · have hz : ¬ (0 < (rs.filter (fun r => r.status == "FOUND")).length) := by
      simp only [generateSummary] at h
      omega
    simp [generateSummary, hz]
  · simp only [generateSummary] at h ⊢
    rw [if_pos h]

/-- Claim C9 witness: a batch of two sent records none of which was
found has pass rate 0 even though the total is 2. -/
theorem claim9_witness :
    (generateSummary [notFoundResult dupSentA, notFoundResult dupSentB]).pass_rate = 0 ∧
    (generateSummary [notFoundResult dupSentA, notFoundResult dupSentB]).total_tickets = 2 :=
  ⟨(claim9_pass_rate [notFoundResult dupSentA, notFoundResult dupSentB]).2.2.1 (by decide),
   by decide⟩

end TicketVerifier
